import Mathlib

/-!
Shallow embedding of the server-provisioning core of the
bbc/ansible-collections-openstack repository and of its
`plugins/modules/network_segment.py` module.

The server module itself (`_network_args`, `_create_server`) is not part of
the repository snapshot: only its unit tests
(`tests/unit/modules/cloud/openstack/test_server.py`) are. Its behaviour is
therefore modelled from the specification (sections 4.1 and 4.2), and the
test fixture `FakeCloud` is embedded verbatim so that the concrete test
scenarios can be replayed against the model.

The `network_segment` module is embedded from its source: its `run` method
is translated into a pure state-transition function over an explicit cloud
state, emitting a trace of SDK calls.
-/

/-- Substring helper: does the second char list occur at the start of the
first one. -/
def startsWithChars : List Char → List Char → Bool
  | _, [] => true
  | [], _ :: _ => false
  | a :: as, b :: bs => a == b && startsWithChars as bs

/-- Substring helper: does the second char list occur anywhere inside the
first one. -/
def containsChars (s sub : List Char) : Bool :=
  match s with
  | [] => startsWithChars [] sub
  | c :: rest => startsWithChars (c :: rest) sub || containsChars rest sub

/-- Does the string `sub` occur as a contiguous substring of `s`. -/
def strContains (s sub : String) : Bool :=
  containsChars s.data sub.data

/-- Modelled from the spec: the canonical interface-attachment record
produced by the Interface Spec Resolver (spec section 3, InterfaceSpec).
It mirrors the dict carrying a `net-id` or a `port-id` entry; both fields
are kept optional so that the exactly-one-populated invariant is a provable
property rather than a structural triviality. -/
structure InterfaceSpec where
  net_id : Option String
  port_id : Option String
deriving DecidableEq

/-- Modelled from the spec: the lookup capabilities consumed by the Resolver
and the Orchestrator (spec section 6); each maps a name-or-id to the
resolved provider identifier, or to no match. -/
structure Cloud where
  get_network : String → Option String
  get_port : String → Option String
  get_image_id : String → Option String
  get_flavor : String → Option String

/-- Modelled from the spec: per-token resolution rule of the Interface Spec
Resolver (spec section 4.1 step 2): `net-id` and `port-id` pass through
verbatim, `net-name` and `port-name` are resolved through the lookup
capability and fail with the unresolved name when no match exists, any
other key is ignored. -/
def resolvePair (cloud : Cloud) (key value : String) :
    Except String (Option InterfaceSpec) :=
  if key = "net-id" then .ok (some ⟨some value, none⟩)
  else if key = "port-id" then .ok (some ⟨none, some value⟩)
  else if key = "net-name" then
    match cloud.get_network value with
    | some i => .ok (some ⟨some i, none⟩)
    | none => .error value
  else if key = "port-name" then
    match cloud.get_port value with
    | some i => .ok (some ⟨none, some i⟩)
    | none => .error value
  else .ok none

/-- Modelled from the spec: resolve a list of key-value pairs in order,
appending one InterfaceSpec per recognized key and skipping unrecognized
keys (spec section 4.1 steps 2 and 3). -/
def resolvePairs (cloud : Cloud) : List (String × String) →
    Except String (List InterfaceSpec)
  | [] => .ok []
  | (k, v) :: rest =>
    match resolvePair cloud k v with
    | .error e => .error e
    | .ok none => resolvePairs cloud rest
    | .ok (some spec) =>
      match resolvePairs cloud rest with
      | .error e => .error e
      | .ok specs => .ok (spec :: specs)

/-- Split a character list into the groups delimited by the separator
character; an empty input yields one empty group, mirroring Python
`str.split`. -/
def splitOnChar (sep : Char) : List Char → List (List Char)
  | [] => [[]]
  | c :: rest =>
    if c = sep then [] :: splitOnChar sep rest
    else
      match splitOnChar sep rest with
      | [] => [[c]]
      | g :: gs => (c :: g) :: gs

/-- Split a character list on the first occurrence of `=` into a key and a
value; without a `=` the whole input is the key and the value is empty. -/
def splitFirstEq : List Char → List Char × List Char
  | [] => ([], [])
  | c :: rest =>
    if c = '=' then ([], rest)
    else
      let (k, v) := splitFirstEq rest
      (c :: k, v)

/-- Modelled from the spec: split one `key=value` token on the first `=`
(spec section 4.1 step 2). -/
def splitToken (tok : String) : String × String :=
  let (k, v) := splitFirstEq tok.data
  (⟨k⟩, ⟨v⟩)

/-- Modelled from the spec: a string nic declaration is split on commas into
tokens, each token split on `=` into a key-value pair (spec section 4.1
step 2). -/
def resolveStringNic (cloud : Cloud) (s : String) :
    Except String (List InterfaceSpec) :=
  resolvePairs cloud ((splitOnChar ',' s.data).map (fun cs => splitToken ⟨cs⟩))

/-- Modelled from the spec: one element of the raw `nics` sequence, either a
comma-joined `key=value` string or a mapping (spec section 3,
RawNicDeclaration). A mapping is embedded as an association list so that the
iteration order over its populated keys is explicit. -/
inductive RawNic where
  | str (s : String)
  | mapping (kvs : List (String × String))
deriving DecidableEq

/-- Modelled from the spec: resolve one raw nic declaration (spec section
4.1 steps 2 and 3). -/
def resolveElement (cloud : Cloud) : RawNic → Except String (List InterfaceSpec)
  | .str s => resolveStringNic cloud s
  | .mapping kvs => resolvePairs cloud kvs

/-- Modelled from the spec: the raw `nics` parameter, a single string or a
sequence of declarations (spec section 4.1 step 1). -/
inductive RawNics where
  | single (s : String)
  | seq (elems : List RawNic)
deriving DecidableEq

/-- Modelled from the spec: resolve a sequence of raw nic declarations in
order, concatenating the per-element results (spec section 4.1 step 4). -/
def resolveSeq (cloud : Cloud) : List RawNic → Except String (List InterfaceSpec)
  | [] => .ok []
  | e :: rest =>
    match resolveElement cloud e with
    | .error err => .error err
    | .ok specs =>
      match resolveSeq cloud rest with
      | .error err => .error err
      | .ok more => .ok (specs ++ more)

/-- Modelled from the spec: the Interface Spec Resolver `_network_args`
(spec section 4.1): a single string is wrapped in a one-element sequence,
a sequence is processed element by element in order. -/
def network_args (cloud : Cloud) : RawNics → Except String (List InterfaceSpec)
  | .single s => resolveSeq cloud [.str s]
  | .seq elems => resolveSeq cloud elems

/-- Modelled from the spec: the parameter set consumed by the Server
Provisioning Orchestrator (spec section 4.2); only the parameters the
validation, resolution and creation steps read are carried. -/
structure ServerParams where
  image : String
  flavor : String
  nics : RawNics
  auto_ip : Bool
  floating_ips : List String
  floating_ip_pools : List String
  wait : Bool

/-- Modelled from the spec: the error taxonomy of the Orchestrator (spec
section 7): an incompatible option combination carrying the offending
option name, or an unresolved named reference carrying the literal name. -/
inductive ServerError where
  | optionConflict (optionName : String)
  | unresolvedName (name : String)
deriving DecidableEq

/-- Modelled from the spec: the user-facing failure message; it must contain
the literal offending value (spec section 6, produced result on failure). -/
def failMsg : ServerError → String
  | .optionConflict o => o ++ " is not compatible with wait=false"
  | .unresolvedName n => "Could not resolve " ++ n

/-- Modelled from the spec: the assembled creation request passed to the
single creation call (spec section 3, ProvisionRequest): resolved image and
flavor identifiers and the resolved interface list. -/
structure CreateCall where
  image : String
  flavor : String
  nics : List InterfaceSpec
deriving DecidableEq

/-- Modelled from the spec: the Server Provisioning Orchestrator
`_create_server` (spec section 4.2): the linear pipeline
Validate (auto_ip, then floating_ips, then floating_ip_pools, each against
wait=false) → ResolveImage → ResolveFlavor → ResolveNICs → Create, each
failure short-circuiting before any later step. An `.ok` result is the one
creation-capability invocation; an `.error` result means the pipeline
stopped before the creation call. -/
def create_server (cloud : Cloud) (p : ServerParams) :
    Except ServerError CreateCall :=
  if p.auto_ip && !p.wait then .error (.optionConflict "auto_ip")
  else if !p.floating_ips.isEmpty && !p.wait then
    .error (.optionConflict "floating_ips")
  else if !p.floating_ip_pools.isEmpty && !p.wait then
    .error (.optionConflict "floating_ip_pools")
  else
    match cloud.get_image_id p.image with
    | none => .error (.unresolvedName p.image)
    | some imageId =>
      match cloud.get_flavor p.flavor with
      | none => .error (.unresolvedName p.flavor)
      | some flavorId =>
        match network_args cloud p.nics with
        | .error n => .error (.unresolvedName n)
        | .ok specs => .ok ⟨imageId, flavorId, specs⟩

/-- Number of creation-capability invocations an orchestration outcome
represents: one for the single creation call of a completed pipeline, zero
when the pipeline stopped at a validation or resolution failure. -/
def createCallCount : Except ServerError CreateCall → Nat
  | .ok _ => 1
  | .error _ => 0

/-- Validation stage of the pipeline passes: none of the three wait-related
option conflicts holds. -/
def validationPasses (p : ServerParams) : Bool :=
  !(p.auto_ip && !p.wait) && !(!p.floating_ips.isEmpty && !p.wait)
    && !(!p.floating_ip_pools.isEmpty && !p.wait)

/-- Name-or-id lookup of the test fixture `FakeCloud._find`
(tests/unit/modules/cloud/openstack/test_server.py lines 59-62): the first
item whose name or id equals the argument; the resolved identifier is the
item id. -/
def fakeFind (source : List (String × String)) (name : String) : Option String :=
  (source.find? (fun item => item.fst == name || item.snd == name)).map Prod.snd

/-- The test fixture `FakeCloud` (test_server.py lines 38-87) as a concrete
lookup capability: ports port1↦1234 and port2↦4321, networks network1↦5678
and network2↦8765, images cirros↦1 and fedora↦2, flavors m1.small↦1 and
m1.tiny↦2. -/
def fakeCloud : Cloud where
  get_network := fakeFind [("network1", "5678"), ("network2", "8765")]
  get_port := fakeFind [("port1", "1234"), ("port2", "4321")]
  get_image_id := fakeFind [("cirros", "1"), ("fedora", "2")]
  get_flavor := fakeFind [("m1.small", "1"), ("m1.tiny", "2")]

/-- A provider-side network as consulted by `find_network`: matched by name
or id, optionally filtered on its network type and physical network
(network_segment.py lines 131-134 pass the segment filters to
`find_network`). -/
structure Network where
  id : String
  name : String
  network_type : Option String
  physical_network : Option String
deriving DecidableEq

/-- A provider-side network segment with the attributes the
`network_segment` module reads and writes (network_segment.py RETURN
block). -/
structure Segment where
  id : String
  name : String
  description : Option String
  network_id : Option String
  network_type : Option String
  physical_network : Option String
  segmentation_id : Option Int
deriving DecidableEq

/-- Desired state of the segment resource (network_segment.py
argument_spec, `state`). -/
inductive SegState where
  | present
  | absent
deriving DecidableEq

/-- The parameters of the `network_segment` module (network_segment.py
argument_spec, lines 105-113); optional parameters left out map to `none`,
mirroring a Python `None`. -/
structure SegmentParams where
  name : String
  description : Option String
  network : Option String
  network_type : Option String
  physical_network : Option String
  segmentation_id : Option Int
  state : SegState
deriving DecidableEq

/-- The `kwargs` dict built in network_segment.py lines 121-125 and extended
with `network_id` in line 135: the create-time attributes whose `some`
fields mirror the keys present in the dict. -/
structure SegKwargs where
  description : Option String
  network_type : Option String
  physical_network : Option String
  segmentation_id : Option Int
  network_id : Option String
deriving DecidableEq

/-- The `filters` dict built in network_segment.py lines 127-129 and
extended with `network_id` in line 136. -/
structure SegFilters where
  network_type : Option String
  physical_network : Option String
  network_id : Option String
deriving DecidableEq

/-- An optional filter value against an optional attribute: an absent filter
matches everything, a present filter requires the attribute to carry
exactly that value. -/
def optMatches (filter : Option String) (attr : Option String) : Bool :=
  match filter with
  | none => true
  | some v => attr == some v

/-- The cloud-side state the `network_segment` module acts on: the network
table (read-only for this module), the segment list, and a counter from
which the SDK derives fresh segment ids. -/
structure SegCloudState where
  networks : List Network
  segments : List Segment
  nextId : Nat
deriving DecidableEq

/-- SDK `find_network(name_or_id, ignore_missing=False, **filters)` as
called in network_segment.py lines 132-134: first network matching the name
or id and the network_type / physical_network filters. `ignore_missing=False`
means a `none` result is surfaced by `run` as a raised resource-not-found
error. -/
def find_network (s : SegCloudState) (nameOrId : String)
    (ntype pnet : Option String) : Option Network :=
  s.networks.find? (fun n =>
    (n.name == nameOrId || n.id == nameOrId)
      && optMatches ntype n.network_type
      && optMatches pnet n.physical_network)

/-- Does a segment match the `find_segment` name-or-id argument and
filters. -/
def segMatches (nameOrId : String) (f : SegFilters) (seg : Segment) : Bool :=
  (seg.name == nameOrId || seg.id == nameOrId)
    && optMatches f.network_type seg.network_type
    && optMatches f.physical_network seg.physical_network
    && optMatches f.network_id seg.network_id

/-- SDK `find_segment(name, **filters)` as called in network_segment.py
line 138: first segment matching the name and the filters, or none. -/
def find_segment (s : SegCloudState) (nameOrId : String) (f : SegFilters) :
    Option Segment :=
  s.segments.find? (segMatches nameOrId f)

/-- SDK `create_segment(name=name, **kwargs)` (network_segment.py line
142): a new segment with an SDK-assigned fresh id and the given attributes,
appended to the segment list. -/
def create_segment (s : SegCloudState) (name : String) (kw : SegKwargs) :
    Segment × SegCloudState :=
  let seg : Segment :=
    { id := "segment-" ++ toString s.nextId
      name := name
      description := kw.description
      network_id := kw.network_id
      network_type := kw.network_type
      physical_network := kw.physical_network
      segmentation_id := kw.segmentation_id }
  (seg, { s with segments := s.segments ++ [seg], nextId := s.nextId + 1 })

/-- SDK `update_segment(segment.id, **update_kwargs)` (network_segment.py
lines 162-164); `update_kwargs` can only ever carry `description` (the loop
in line 151 ranges over `["description"]`), so the call is embedded with a
description argument alone. Returns the updated segment and the new
state. -/
def update_segment (s : SegCloudState) (segId : String) (desc : String) :
    Option Segment × SegCloudState :=
  ((s.segments.find? (fun t => t.id == segId)).map
      (fun t => { t with description := some desc }),
   { s with
      segments := s.segments.map
        (fun t =>
          if t.id == segId then { t with description := some desc } else t) })

/-- SDK `delete_segment(segment['id'])` (network_segment.py line 173). -/
def delete_segment (s : SegCloudState) (segId : String) : SegCloudState :=
  { s with segments := s.segments.filter (fun t => !(t.id == segId)) }

/-- One SDK call as recorded in the run trace; `updateSegmentCall` carries
only the description, the single attribute the module ever updates. -/
inductive SdkCall where
  | findNetworkCall (nameOrId : String)
  | findSegmentCall (nameOrId : String)
  | createSegmentCall (name : String)
  | updateSegmentCall (segId : String) (description : String)
  | deleteSegmentCall (segId : String)
deriving DecidableEq

/-- Outcome of one `run` of the module: a normal exit carrying `changed` and
the segment reported (none for `absent`), or the `ResourceNotFound` raised
by `find_network(..., ignore_missing=False)` carrying the unresolved
name. -/
inductive SegOutcome where
  | exited (changed : Bool) (segment : Option Segment)
  | raisedNotFound (nameOrId : String)
deriving DecidableEq

/-- Result of one `run`: the ordered trace of SDK calls issued, the outcome,
and the final cloud state. -/
structure SegRunResult where
  trace : List SdkCall
  outcome : SegOutcome
  state : SegCloudState
deriving DecidableEq

/-- The `kwargs` dict right after the loop of network_segment.py lines
121-125: the four optional attribute parameters, `network_id` not yet
set. -/
def baseKwargs (p : SegmentParams) : SegKwargs :=
  { description := p.description
    network_type := p.network_type
    physical_network := p.physical_network
    segmentation_id := p.segmentation_id
    network_id := none }

/-- The `filters` dict right after the loop of network_segment.py lines
127-129: network_type and physical_network, `network_id` not yet set. -/
def baseFilters (p : SegmentParams) : SegFilters :=
  { network_type := p.network_type
    physical_network := p.physical_network
    network_id := none }

/-- Lines 131-136 of network_segment.py: when a network parameter is given,
resolve it through `find_network` with `ignore_missing=False` (a failed
lookup raises, embedded as `.error`), then extend both kwargs and filters
with the resolved network id. Returns the trace of the step together with
the extended kwargs and filters. -/
def resolveNetworkStep (p : SegmentParams) (s : SegCloudState) :
    List SdkCall × Except String (SegKwargs × SegFilters) :=
  match p.network with
  | none => ([], .ok (baseKwargs p, baseFilters p))
  | some n =>
    match find_network s n p.network_type p.physical_network with
    | none => ([.findNetworkCall n], .error n)
    | some net =>
      ([.findNetworkCall n],
       .ok ({ baseKwargs p with network_id := some net.id },
            { baseFilters p with network_id := some net.id }))

/-- The `update_kwargs` construction of network_segment.py lines 146-159:
the loop ranges over `["description"]` alone, and keeps the value only when
it is present in kwargs, not None, and differs from the found segment's
current description. -/
def build_update_kwargs (kw : SegKwargs) (seg : Segment) : Option String :=
  match kw.description with
  | none => none
  | some d => if seg.description == some d then none else some d

/-- Lines 138-174 of network_segment.py, after the network has been
resolved: look the segment up, then branch on state — `present` creates it
when missing, otherwise updates at most its description; `absent` deletes
it when found. -/
def runWithFilters (p : SegmentParams) (s : SegCloudState) (t0 : List SdkCall)
    (kw : SegKwargs) (f : SegFilters) : SegRunResult :=
  let segRes := find_segment s p.name f
  let t := t0 ++ [.findSegmentCall p.name]
  match p.state with
  | .present =>
    match segRes with
    | none =>
      let (seg, s1) := create_segment s p.name kw
      ⟨t ++ [.createSegmentCall p.name], .exited true (some seg), s1⟩
    | some seg =>
      match build_update_kwargs kw seg with
      | none => ⟨t, .exited false (some seg), s⟩
      | some d =>
        let (updated, s1) := update_segment s seg.id d
        ⟨t ++ [.updateSegmentCall seg.id d], .exited true updated, s1⟩
  | .absent =>
    match segRes with
    | none => ⟨t, .exited false none, s⟩
    | some seg =>
      ⟨t ++ [.deleteSegmentCall seg.id], .exited true none,
       delete_segment s seg.id⟩

/-- `NetworkSegmentModule.run` (network_segment.py lines 115-174) as a pure
state-transition function: resolve the network parameter first (raising on
a failed lookup), then run the segment lookup and the state branch. -/
def run (p : SegmentParams) (s : SegCloudState) : SegRunResult :=
  match resolveNetworkStep p s with
  | (t, .error n) => ⟨t, .raisedNotFound n, s⟩
  | (t, .ok (kw, f)) => runWithFilters p s t kw f

/-- Is an SDK call one that mutates segment state. -/
def isMutationCall : SdkCall → Bool
  | .createSegmentCall _ => true
  | .updateSegmentCall _ _ => true
  | .deleteSegmentCall _ => true
  | _ => false

/-- A segment with its description forgotten; the image of a segment list
under this map is what an update-only-description call must preserve. -/
def stripDescription (seg : Segment) : Segment :=
  { seg with description := none }

/-- Does an InterfaceSpec carry exactly one of its two identifier fields. -/
def exactlyOneOf (spec : InterfaceSpec) : Bool :=
  (spec.net_id.isSome && spec.port_id.isNone)
    || (spec.net_id.isNone && spec.port_id.isSome)

/-- Is an SDK call a segment creation or deletion (the mutations an
update-only run must never issue). -/
def isCreateOrDeleteCall : SdkCall → Bool
  | .createSegmentCall _ => true
  | .deleteSegmentCall _ => true
  | _ => false

/-- The parameter set of `test_create_server` (test_server.py lines
180-196): image cirros, flavor m1.tiny, one structured net-name nic; the
remaining parameters default to falsy values under the test harness's
defaultdict. -/
def testServerParams : ServerParams :=
  { image := "cirros"
    flavor := "m1.tiny"
    nics := .seq [.mapping [("net-name", "network1")]]
    auto_ip := false
    floating_ips := []
    floating_ip_pools := []
    wait := false }

/-- The parameter set of `test_create_server_bad_flavor` (test_server.py
lines 198-209). -/
def badFlavorParams : ServerParams :=
  { testServerParams with flavor := "missing_flavor" }

/-- The parameter set of `test_create_server_bad_nic` (test_server.py lines
211-222). -/
def badNicParams : ServerParams :=
  { testServerParams with nics := .seq [.mapping [("net-name", "missing_network")]] }

/-- A concrete `network_segment` parameter set: create-or-keep segment seg1
on network net1 with vlan type. -/
def segParams1 : SegmentParams :=
  { name := "seg1"
    description := some "d"
    network := some "net1"
    network_type := some "vlan"
    physical_network := some "ph"
    segmentation_id := some 100
    state := .present }

/-- The same parameter set with state absent. -/
def segParamsAbsent : SegmentParams :=
  { segParams1 with state := .absent }

/-- A concrete cloud state with the net1 network and no segments. -/
def segState0 : SegCloudState :=
  { networks := [{ id := "nid1", name := "net1", network_type := some "vlan",
                   physical_network := some "ph" }]
    segments := []
    nextId := 0 }

/-- A pre-existing seg1 segment whose description differs from the
parameter set's. -/
def segExisting : Segment :=
  { id := "sX"
    name := "seg1"
    description := some "old"
    network_id := some "nid1"
    network_type := some "vlan"
    physical_network := some "ph"
    segmentation_id := some 100 }

/-- A concrete cloud state already holding the seg1 segment. -/
def segState1 : SegCloudState :=
  { networks := segState0.networks
    segments := [segExisting]
    nextId := 3 }

theorem resolveSeq_append (cloud : Cloud) (xs ys : List RawNic) :
    resolveSeq cloud (xs ++ ys)
      = match resolveSeq cloud xs with
        | .error e => .error e
        | .ok a => (resolveSeq cloud ys).map (fun b => a ++ b) := by
  induction xs with
  | nil =>
    simp only [List.nil_append, resolveSeq]
    cases h : resolveSeq cloud ys <;> simp [Except.map]
  | cons e xs ih =>
    simp only [List.cons_append, resolveSeq]
    cases he : resolveElement cloud e with
    | error err => simp
    | ok specs =>
      simp only [List.append_eq]
      rw [ih]
      cases h1 : resolveSeq cloud xs with
      | error err => simp
      | ok a =>
        cases h2 : resolveSeq cloud ys <;> simp [Except.map, List.append_assoc]

/-- C1. The Interface Spec Resolver flattens a mixed sequence of mapping and
string declarations in exact input order: the resolution of a concatenated
sequence is the concatenation of the resolutions, a one-element sequence
resolves to that element's specs, and the concrete mixed input of
`test_nics_structured_mixed` resolves, in order, to
net-id 1234, port-id 1234, net-id 5678, port-id 4321. -/
theorem network_args_order :
    ∀ (cloud : Cloud) (xs ys : List RawNic),
      (network_args cloud (.seq (xs ++ ys))
        = match network_args cloud (.seq xs) with
          | .error e => .error e
          | .ok a => (network_args cloud (.seq ys)).map (fun b => a ++ b))
      ∧ (∀ e : RawNic, network_args cloud (.seq [e]) = resolveElement cloud e)
      ∧ network_args fakeCloud
          (.seq [.mapping [("net-id", "1234")], .mapping [("port-name", "port1")],
                 .str "net-name=network1,port-id=4321"])
        = .ok [⟨some "1234", none⟩, ⟨none, some "1234"⟩,
               ⟨some "5678", none⟩, ⟨none, some "4321"⟩] := by
  intro cloud xs ys
  refine ⟨resolveSeq_append cloud xs ys, ?_, ?_⟩
  · intro e
    show resolveSeq cloud [e] = resolveElement cloud e
    simp only [resolveSeq]
    cases he : resolveElement cloud e <;> simp
  · rfl

/-- C2. For string-form nic declarations, the Resolver appends exactly one
InterfaceSpec per recognized key in left-to-right token order: net-id and
port-id values pass through verbatim, net-name and port-name are replaced
by the identifier returned by the lookup; the three string scenarios of the
test suite evaluate accordingly on the FakeCloud fixture. -/
theorem network_args_string_tokens :
    ∀ (cloud : Cloud) (v : String) (rest : List (String × String)),
      (resolvePairs cloud (("net-id", v) :: rest)
          = (resolvePairs cloud rest).map (fun xs => ⟨some v, none⟩ :: xs))
      ∧ (resolvePairs cloud (("port-id", v) :: rest)
          = (resolvePairs cloud rest).map (fun xs => ⟨none, some v⟩ :: xs))
      ∧ (∀ i, cloud.get_network v = some i →
          resolvePairs cloud (("net-name", v) :: rest)
            = (resolvePairs cloud rest).map (fun xs => ⟨some i, none⟩ :: xs))
      ∧ (∀ i, cloud.get_port v = some i →
          resolvePairs cloud (("port-name", v) :: rest)
            = (resolvePairs cloud rest).map (fun xs => ⟨none, some i⟩ :: xs))
      ∧ network_args fakeCloud (.single "net-id=1234,net-id=4321")
          = .ok [⟨some "1234", none⟩, ⟨some "4321", none⟩]
      ∧ network_args fakeCloud (.single "net-name=network1")
          = .ok [⟨some "5678", none⟩]
      ∧ network_args fakeCloud (.single "port-name=port1")
          = .ok [⟨none, some "1234"⟩] := by
  intro cloud v rest
  refine ⟨?_, ?_, ?_, ?_, rfl, rfl, rfl⟩
  · simp only [resolvePairs, resolvePair, if_pos rfl]
    cases h : resolvePairs cloud rest <;> simp [Except.map]
  · simp only [resolvePairs, resolvePair]
    norm_num
    cases h : resolvePairs cloud rest <;> simp [Except.map]
  · intro i hi
    simp only [resolvePairs, resolvePair]
    norm_num
    rw [hi]
    cases h : resolvePairs cloud rest <;> simp [Except.map]
  · intro i hi
    simp only [resolvePairs, resolvePair]
    norm_num
    rw [hi]
    cases h : resolvePairs cloud rest <;> simp [Except.map]

/-- C6. A key=value token whose key is none of the four recognized keys is
silently ignored: it produces no InterfaceSpec and no error, and the
recognized tokens around it are still resolved normally, as in the mixed
concrete declaration with the unknown keys foo and bogus. -/
theorem network_args_unrecognized_ignored :
    ∀ (cloud : Cloud) (k v : String) (rest : List (String × String)),
      (k ≠ "net-id" → k ≠ "port-id" → k ≠ "net-name" → k ≠ "port-name" →
        resolvePair cloud k v = .ok none
        ∧ resolvePairs cloud ((k, v) :: rest) = resolvePairs cloud rest)
      ∧ network_args fakeCloud (.single "foo=bar,net-id=1,bogus=2,port-name=port1")
        = .ok [⟨some "1", none⟩, ⟨none, some "1234"⟩] := by
  intro cloud k v rest
  refine ⟨fun h1 h2 h3 h4 => ?_, rfl⟩
  have hp : resolvePair cloud k v = .ok none := by
    simp [resolvePair, h1, h2, h3, h4]
  refine ⟨hp, ?_⟩
  simp only [resolvePairs, hp]

theorem resolvePair_ok_shape (cloud : Cloud) (k v : String)
    (spec : InterfaceSpec) (h : resolvePair cloud k v = .ok (some spec)) :
    exactlyOneOf spec = true := by
  unfold resolvePair at h
  repeat' split at h
  all_goals cases h
  all_goals rfl

theorem resolvePairs_exactlyOne (cloud : Cloud) :
    ∀ (kvs : List (String × String)) (specs : List InterfaceSpec),
      resolvePairs cloud kvs = .ok specs →
      ∀ spec ∈ specs, exactlyOneOf spec = true := by
  intro kvs
  induction kvs with
  | nil =>
    intro specs h spec hm
    simp only [resolvePairs] at h
    cases h
    simp at hm
  | cons kv rest ih =>
    intro specs h spec hm
    rcases kv with ⟨k, v⟩
    simp only [resolvePairs] at h
    cases hp : resolvePair cloud k v with
    | error e => rw [hp] at h; cases h
    | ok o =>
      rw [hp] at h
      cases o with
      | none => exact ih specs h spec hm
      | some sp =>
        cases hr : resolvePairs cloud rest with
        | error e => rw [hr] at h; cases h
        | ok specs2 =>
          rw [hr] at h
          cases h
          rcases List.mem_cons.mp hm with hsp | hmem
          · subst hsp; exact resolvePair_ok_shape cloud k v spec hp
          · exact ih specs2 hr spec hmem

theorem resolveElement_exactlyOne (cloud : Cloud) (e : RawNic)
    (specs : List InterfaceSpec) (h : resolveElement cloud e = .ok specs) :
    ∀ spec ∈ specs, exactlyOneOf spec = true := by
  cases e with
  | str s => exact resolvePairs_exactlyOne cloud _ specs h
  | mapping kvs => exact resolvePairs_exactlyOne cloud kvs specs h

theorem resolveSeq_exactlyOne (cloud : Cloud) :
    ∀ (elems : List RawNic) (specs : List InterfaceSpec),
      resolveSeq cloud elems = .ok specs →
      ∀ spec ∈ specs, exactlyOneOf spec = true := by
  intro elems
  induction elems with
  | nil =>
    intro specs h spec hm
    simp only [resolveSeq] at h
    cases h
    simp at hm
  | cons e rest ih =>
    intro specs h spec hm
    simp only [resolveSeq] at h
    cases he : resolveElement cloud e with
    | error err => rw [he] at h; cases h
    | ok specs1 =>
      rw [he] at h
      cases hr : resolveSeq cloud rest with
      | error err => rw [hr] at h; cases h
      | ok specs2 =>
        rw [hr] at h
        cases h
        rcases List.mem_append.mp hm with hmem | hmem
        · exact resolveElement_exactlyOne cloud e specs1 he spec hmem
        · exact ih specs2 hr spec hmem

/-- C8. Every InterfaceSpec the Resolver produces, for any supported input
shape and any lookup capability, has exactly one of its net-id and port-id
fields populated: never both and never neither. -/
theorem interface_spec_exactly_one :
    ∀ (cloud : Cloud) (nics : RawNics) (specs : List InterfaceSpec),
      network_args cloud nics = .ok specs →
      ∀ spec ∈ specs, exactlyOneOf spec = true := by
  intro cloud nics specs h
  cases nics with
  | single s => exact resolveSeq_exactlyOne cloud _ specs h
  | seq elems => exact resolveSeq_exactlyOne cloud elems specs h

theorem startsWithChars_self : ∀ l : List Char, startsWithChars l l = true := by
  intro l
  induction l with
  | nil => rfl
  | cons c rest ih => simp [startsWithChars, ih]

theorem containsChars_of_starts (s sub : List Char)
    (h : startsWithChars s sub = true) : containsChars s sub = true := by
  cases s <;> simp [containsChars, h]

theorem containsChars_append_self :
    ∀ a b : List Char, containsChars (a ++ b) b = true := by
  intro a b
  induction a with
  | nil => exact containsChars_of_starts b b (startsWithChars_self b)
  | cons c rest ih => simp [containsChars, ih]

theorem strContains_append_self (a b : String) :
    strContains (a ++ b) b = true := by
  simp only [strContains, String.data_append]
  exact containsChars_append_self a.data b.data

/-- C3. With wait=false the Orchestrator fails before any resolution or
creation step (the outcome is the same for every lookup capability and the
creation call count is zero), the failure message contains the literal
offending option name, and when several violations hold the one reported
follows the fixed order auto_ip, then floating_ips, then
floating_ip_pools. -/
theorem create_server_wait_validation :
    ∀ (cloud : Cloud) (p : ServerParams), p.wait = false →
      (p.auto_ip = true →
        create_server cloud p = .error (.optionConflict "auto_ip")
        ∧ strContains (failMsg (.optionConflict "auto_ip")) "auto_ip" = true
        ∧ createCallCount (create_server cloud p) = 0)
      ∧ (p.auto_ip = false → p.floating_ips ≠ [] →
        create_server cloud p = .error (.optionConflict "floating_ips")
        ∧ strContains (failMsg (.optionConflict "floating_ips")) "floating_ips"
            = true
        ∧ createCallCount (create_server cloud p) = 0)
      ∧ (p.auto_ip = false → p.floating_ips = [] → p.floating_ip_pools ≠ [] →
        create_server cloud p = .error (.optionConflict "floating_ip_pools")
        ∧ strContains (failMsg (.optionConflict "floating_ip_pools"))
            "floating_ip_pools" = true
        ∧ createCallCount (create_server cloud p) = 0) := by
  intro cloud p hw
  refine ⟨fun ha => ?_, fun ha hips => ?_, fun ha hips hpools => ?_⟩
  · have h : create_server cloud p = .error (.optionConflict "auto_ip") := by
      simp [create_server, hw, ha]
    exact ⟨h, by decide, by rw [h]; rfl⟩
  · have h : create_server cloud p = .error (.optionConflict "floating_ips") := by
      simp [create_server, hw, ha, hips]
    exact ⟨h, by decide, by rw [h]; rfl⟩
  · have h : create_server cloud p
        = .error (.optionConflict "floating_ip_pools") := by
      simp [create_server, hw, ha, hips, hpools]
    exact ⟨h, by decide, by rw [h]; rfl⟩

theorem create_server_validated (cloud : Cloud) (p : ServerParams)
    (hv : validationPasses p = true) :
    create_server cloud p
      = match cloud.get_image_id p.image with
        | none => .error (.unresolvedName p.image)
        | some imageId =>
          match cloud.get_flavor p.flavor with
          | none => .error (.unresolvedName p.flavor)
          | some flavorId =>
            match network_args cloud p.nics with
            | .error n => .error (.unresolvedName n)
            | .ok specs => .ok ⟨imageId, flavorId, specs⟩ := by
  simp only [validationPasses, Bool.and_eq_true, Bool.not_eq_true'] at hv
  simp [create_server, hv.1.1, hv.1.2, hv.2]

/-- C4. When the flavor lookup or a nic net-name lookup resolves to nothing,
the Orchestrator terminates with a failure whose message contains the
literal unresolved name and the creation capability is invoked zero times;
the two concrete failing test scenarios surface missing_flavor and
missing_network respectively. -/
theorem create_server_unresolved_failure :
    ∀ (cloud : Cloud) (p : ServerParams), validationPasses p = true →
      ((cloud.get_image_id p.image).isSome = true →
        cloud.get_flavor p.flavor = none →
        create_server cloud p = .error (.unresolvedName p.flavor)
        ∧ strContains (failMsg (.unresolvedName p.flavor)) p.flavor = true
        ∧ createCallCount (create_server cloud p) = 0)
      ∧ (∀ i f n, cloud.get_image_id p.image = some i →
        cloud.get_flavor p.flavor = some f →
        network_args cloud p.nics = .error n →
        create_server cloud p = .error (.unresolvedName n)
        ∧ strContains (failMsg (.unresolvedName n)) n = true
        ∧ createCallCount (create_server cloud p) = 0)
      ∧ (∀ name, cloud.get_network name = none →
        resolvePair cloud "net-name" name = .error name)
      ∧ create_server fakeCloud badFlavorParams
          = .error (.unresolvedName "missing_flavor")
      ∧ create_server fakeCloud badNicParams
          = .error (.unresolvedName "missing_network") := by
  intro cloud p hv
  refine ⟨fun himg hfl => ?_, fun i f n hi hf hn => ?_, fun name hname => ?_,
    rfl, rfl⟩
  · rcases Option.isSome_iff_exists.mp himg with ⟨i, hi⟩
    have h : create_server cloud p = .error (.unresolvedName p.flavor) := by
      rw [create_server_validated cloud p hv, hi, hfl]
    exact ⟨h, strContains_append_self "Could not resolve " p.flavor,
      by rw [h]; rfl⟩
  · have h : create_server cloud p = .error (.unresolvedName n) := by
      rw [create_server_validated cloud p hv, hi, hf, hn]
    exact ⟨h, strContains_append_self "Could not resolve " n, by rw [h]; rfl⟩
  · simp [resolvePair, hname]

/-- C5. When validation passes and image, flavor and all nic references
resolve, the Orchestrator issues exactly one creation call whose nics
argument is the fully resolved InterfaceSpec sequence and whose image and
flavor arguments are the resolved identifiers; any validation or
resolution failure means zero creation calls. The concrete
test_create_server scenario creates with image id 1, flavor id 2 and the
single net-id 5678 interface. -/
theorem create_server_success_once :
    ∀ (cloud : Cloud) (p : ServerParams),
      (∀ i f specs, validationPasses p = true →
        cloud.get_image_id p.image = some i →
        cloud.get_flavor p.flavor = some f →
        network_args cloud p.nics = .ok specs →
        create_server cloud p = .ok ⟨i, f, specs⟩
        ∧ createCallCount (create_server cloud p) = 1)
      ∧ (∀ e, create_server cloud p = .error e →
        createCallCount (create_server cloud p) = 0)
      ∧ create_server fakeCloud testServerParams
          = .ok ⟨"1", "2", [⟨some "5678", none⟩]⟩ := by
  intro cloud p
  refine ⟨fun i f specs hv hi hf hn => ?_, fun e he => ?_, rfl⟩
  · have h : create_server cloud p = .ok ⟨i, f, specs⟩ := by
      rw [create_server_validated cloud p hv, hi, hf, hn]
    exact ⟨h, by rw [h]; rfl⟩
  · rw [he]; rfl

theorem run_of_error (p : SegmentParams) (s : SegCloudState)
    (t : List SdkCall) (n : String)
    (h : resolveNetworkStep p s = (t, .error n)) :
    run p s = ⟨t, .raisedNotFound n, s⟩ := by
  simp [run, h]

theorem run_of_ok (p : SegmentParams) (s : SegCloudState)
    (t : List SdkCall) (kw : SegKwargs) (f : SegFilters)
    (h : resolveNetworkStep p s = (t, .ok (kw, f))) :
    run p s = runWithFilters p s t kw f := by
  simp [run, h]

theorem rwf_present_create (p : SegmentParams) (s : SegCloudState)
    (t : List SdkCall) (kw : SegKwargs) (f : SegFilters)
    (hst : p.state = .present) (hseg : find_segment s p.name f = none) :
    runWithFilters p s t kw f
      = ⟨(t ++ [.findSegmentCall p.name]) ++ [.createSegmentCall p.name],
         .exited true (some (create_segment s p.name kw).fst),
         (create_segment s p.name kw).snd⟩ := by
  simp [runWithFilters, hst, hseg]

theorem rwf_present_keep (p : SegmentParams) (s : SegCloudState)
    (t : List SdkCall) (kw : SegKwargs) (f : SegFilters) (seg : Segment)
    (hst : p.state = .present) (hseg : find_segment s p.name f = some seg)
    (hupd : build_update_kwargs kw seg = none) :
    runWithFilters p s t kw f
      = ⟨t ++ [.findSegmentCall p.name], .exited false (some seg), s⟩ := by
  simp [runWithFilters, hst, hseg, hupd]

theorem rwf_present_update (p : SegmentParams) (s : SegCloudState)
    (t : List SdkCall) (kw : SegKwargs) (f : SegFilters) (seg : Segment)
    (d : String)
    (hst : p.state = .present) (hseg : find_segment s p.name f = some seg)
    (hupd : build_update_kwargs kw seg = some d) :
    runWithFilters p s t kw f
      = ⟨(t ++ [.findSegmentCall p.name]) ++ [.updateSegmentCall seg.id d],
         .exited true (update_segment s seg.id d).fst,
         (update_segment s seg.id d).snd⟩ := by
  simp [runWithFilters, hst, hseg, hupd]

theorem rwf_absent_none (p : SegmentParams) (s : SegCloudState)
    (t : List SdkCall) (kw : SegKwargs) (f : SegFilters)
    (hst : p.state = .absent) (hseg : find_segment s p.name f = none) :
    runWithFilters p s t kw f
      = ⟨t ++ [.findSegmentCall p.name], .exited false none, s⟩ := by
  simp [runWithFilters, hst, hseg]

theorem rwf_absent_found (p : SegmentParams) (s : SegCloudState)
    (t : List SdkCall) (kw : SegKwargs) (f : SegFilters) (seg : Segment)
    (hst : p.state = .absent) (hseg : find_segment s p.name f = some seg) :
    runWithFilters p s t kw f
      = ⟨(t ++ [.findSegmentCall p.name]) ++ [.deleteSegmentCall seg.id],
         .exited true none, delete_segment s seg.id⟩ := by
  simp [runWithFilters, hst, hseg]

theorem resolveNetworkStep_congr (p : SegmentParams) (s s' : SegCloudState)
    (h : s'.networks = s.networks) :
    resolveNetworkStep p s' = resolveNetworkStep p s := by
  unfold resolveNetworkStep find_network
  simp only [h]

theorem resolveNetworkStep_trace_shape (p : SegmentParams) (s : SegCloudState)
    (t : List SdkCall) (r : Except String (SegKwargs × SegFilters))
    (h : resolveNetworkStep p s = (t, r)) :
    t = [] ∨ ∃ n, p.network = some n ∧ t = [.findNetworkCall n] := by
  unfold resolveNetworkStep at h
  split at h
  · cases h; exact Or.inl rfl
  · split at h
    · cases h; exact Or.inr ⟨_, by assumption, rfl⟩
    · cases h; exact Or.inr ⟨_, by assumption, rfl⟩

theorem resolveNetworkStep_ok_fields (p : SegmentParams) (s : SegCloudState)
    (t : List SdkCall) (kw : SegKwargs) (f : SegFilters)
    (h : resolveNetworkStep p s = (t, .ok (kw, f))) :
    kw.description = p.description
    ∧ kw.network_type = p.network_type
    ∧ kw.physical_network = p.physical_network
    ∧ kw.segmentation_id = p.segmentation_id
    ∧ f.network_type = p.network_type
    ∧ f.physical_network = p.physical_network
    ∧ f.network_id = kw.network_id := by
  unfold resolveNetworkStep at h
  split at h
  · cases h; simp [baseKwargs, baseFilters]
  · split at h
    · cases h
    · cases h; simp [baseKwargs, baseFilters]

theorem optMatches_self : ∀ o : Option String, optMatches o o = true := by
  intro o
  cases o <;> simp [optMatches]

theorem find?_append_of_none {α : Type} (p : α → Bool) (l1 l2 : List α)
    (h : l1.find? p = none) : (l1 ++ l2).find? p = l2.find? p := by
  induction l1 with
  | nil => rfl
  | cons a as ih =>
    by_cases hpa : p a = true
    · rw [List.find?_cons_of_pos _ hpa] at h; cases h
    · rw [List.find?_cons_of_neg _ hpa] at h
      rw [List.cons_append, List.find?_cons_of_neg _ hpa]
      exact ih h

theorem find?_map_pres {α : Type} (f : α → α) (p : α → Bool)
    (hf : ∀ x, p (f x) = p x) (l : List α) :
    (l.map f).find? p = (l.find? p).map f := by
  induction l with
  | nil => rfl
  | cons a as ih =>
    simp only [List.map_cons]
    by_cases hpa : p a = true
    · rw [List.find?_cons_of_pos _ (by rw [hf]; exact hpa),
        List.find?_cons_of_pos _ hpa]
      rfl
    · rw [List.find?_cons_of_neg _ (by rw [hf]; exact hpa),
        List.find?_cons_of_neg _ hpa]
      exact ih

theorem created_matches (p : SegmentParams) (s : SegCloudState)
    (t : List SdkCall) (kw : SegKwargs) (f : SegFilters)
    (h : resolveNetworkStep p s = (t, .ok (kw, f))) :
    segMatches p.name f (create_segment s p.name kw).fst = true := by
  obtain ⟨_, hnt, hpn, _, fnt, fpn, fni⟩ :=
    resolveNetworkStep_ok_fields p s t kw f h
  simp only [segMatches, create_segment]
  rw [fnt, hnt, fpn, hpn, fni]
  simp [optMatches_self]

theorem created_no_update (p : SegmentParams) (s : SegCloudState)
    (kw : SegKwargs) :
    build_update_kwargs kw (create_segment s p.name kw).fst = none := by
  obtain ⟨de, nt, pn, si, ni⟩ := kw
  simp only [build_update_kwargs, create_segment]
  cases de <;> simp

theorem build_update_some (kw : SegKwargs) (seg : Segment) (d : String)
    (h : build_update_kwargs kw seg = some d) :
    kw.description = some d := by
  unfold build_update_kwargs at h
  split at h
  · cases h
  · split at h
    · cases h
    · cases h; assumption

theorem segMatches_upd (nm : String) (f : SegFilters) (segId d : String)
    (x : Segment) :
    segMatches nm f
        (if x.id == segId then { x with description := some d } else x)
      = segMatches nm f x := by
  by_cases h : (x.id == segId) = true
  · rw [if_pos h]; rfl
  · rw [if_neg h]

theorem map_strip (segId d : String) (l : List Segment) :
    (l.map (fun x =>
        if x.id == segId then { x with description := some d } else x)).map
        stripDescription
      = l.map stripDescription := by
  induction l with
  | nil => rfl
  | cons a as ih =>
    simp only [List.map_cons, ih, List.cons.injEq, and_true]
    by_cases h : (a.id == segId) = true
    · rw [if_pos h]; rfl
    · rw [if_neg h]

theorem rwf_networks (p : SegmentParams) (s : SegCloudState)
    (t : List SdkCall) (kw : SegKwargs) (f : SegFilters) :
    (runWithFilters p s t kw f).state.networks = s.networks := by
  cases hst : p.state with
  | present =>
    cases hseg : find_segment s p.name f with
    | none => simp [runWithFilters, hst, hseg, create_segment]
    | some seg =>
      cases hupd : build_update_kwargs kw seg with
      | none => simp [runWithFilters, hst, hseg, hupd]
      | some d => simp [runWithFilters, hst, hseg, hupd, update_segment]
  | absent =>
    cases hseg : find_segment s p.name f with
    | none => simp [runWithFilters, hst, hseg]
    | some seg => simp [runWithFilters, hst, hseg, delete_segment]

theorem rwf_trace_shape (p : SegmentParams) (s : SegCloudState)
    (t0 : List SdkCall) (kw : SegKwargs) (f : SegFilters) :
    ∃ ts, (runWithFilters p s t0 kw f).trace = t0 ++ ts := by
  cases hst : p.state with
  | present =>
    cases hseg : find_segment s p.name f with
    | none =>
      exact ⟨[.findSegmentCall p.name, .createSegmentCall p.name],
        by simp [runWithFilters, hst, hseg, create_segment]⟩
    | some seg =>
      cases hupd : build_update_kwargs kw seg with
      | none =>
        exact ⟨[.findSegmentCall p.name],
          by simp [runWithFilters, hst, hseg, hupd]⟩
      | some d =>
        exact ⟨[.findSegmentCall p.name, .updateSegmentCall seg.id d],
          by simp [runWithFilters, hst, hseg, hupd, update_segment]⟩
  | absent =>
    cases hseg : find_segment s p.name f with
    | none =>
      exact ⟨[.findSegmentCall p.name],
        by simp [runWithFilters, hst, hseg]⟩
    | some seg =>
      exact ⟨[.findSegmentCall p.name, .deleteSegmentCall seg.id],
        by simp [runWithFilters, hst, hseg, delete_segment]⟩

theorem trace_nonmut (t : List SdkCall)
    (hshape : t = [] ∨ ∃ n, t = [SdkCall.findNetworkCall n]) (nm : String) :
    ((t ++ [SdkCall.findSegmentCall nm]).all fun c => !isMutationCall c)
      = true := by
  rcases hshape with h | ⟨n, h⟩ <;> subst h <;> rfl

/-- C7. The network_segment module is idempotent: after a present run that
exits, running present again with identical parameters exits with
changed=false, leaves the cloud state untouched and issues no create,
update or delete call; and an absent run that finds no matching segment
exits with changed=false and issues no segment-mutating call. -/
theorem network_segment_idempotent :
    ∀ (p : SegmentParams) (s : SegCloudState),
      (p.state = .present → ∀ c r, (run p s).outcome = .exited c r →
        (∃ r2, (run p (run p s).state).outcome = .exited false r2)
        ∧ (run p (run p s).state).state = (run p s).state
        ∧ ((run p (run p s).state).trace.all fun call => !isMutationCall call)
            = true)
      ∧ (p.state = .absent → ∀ t kw f,
        resolveNetworkStep p s = (t, .ok (kw, f)) →
        find_segment s p.name f = none →
        run p s = ⟨t ++ [.findSegmentCall p.name], .exited false none, s⟩
        ∧ ((run p s).trace.all fun call => !isMutationCall call) = true) := by
  intro p s
  constructor
  · intro hpres c r hout
    rcases hres : resolveNetworkStep p s with ⟨t, rr⟩
    cases rr with
    | error n =>
      rw [run_of_error p s t n hres] at hout
      cases hout
    | ok kf =>
      rcases kf with ⟨kw, f⟩
      have hrun1 : run p s = runWithFilters p s t kw f := run_of_ok p s t kw f hres
      have hshape : t = [] ∨ ∃ n, t = [SdkCall.findNetworkCall n] := by
        rcases resolveNetworkStep_trace_shape p s t _ hres with h | ⟨n, _, h⟩
        · exact Or.inl h
        · exact Or.inr ⟨n, h⟩
      cases hseg : find_segment s p.name f with
      | none =>
        have hr1 := rwf_present_create p s t kw f hpres hseg
        have hs1 : (run p s).state = (create_segment s p.name kw).snd := by
          rw [hrun1, hr1]
        have hnet1 : (create_segment s p.name kw).snd.networks = s.networks := rfl
        have hres2 : resolveNetworkStep p (create_segment s p.name kw).snd
            = (t, .ok (kw, f)) :=
          (resolveNetworkStep_congr p _ s hnet1).trans hres
        have hfind2 : find_segment (create_segment s p.name kw).snd p.name f
            = some (create_segment s p.name kw).fst := by
          have heq : find_segment (create_segment s p.name kw).snd p.name f
              = (s.segments ++ [(create_segment s p.name kw).fst]).find?
                  (segMatches p.name f) := rfl
          rw [heq, find?_append_of_none _ _ _ hseg,
            List.find?_cons_of_pos _ (created_matches p s t kw f hres)]
        have hupd2 := created_no_update p s kw
        have hrun2 : run p (create_segment s p.name kw).snd
            = ⟨t ++ [.findSegmentCall p.name],
               .exited false (some (create_segment s p.name kw).fst),
               (create_segment s p.name kw).snd⟩ := by
          rw [run_of_ok p _ t kw f hres2,
            rwf_present_keep p _ t kw f _ hpres hfind2 hupd2]
        rw [hs1, hrun2]
        exact ⟨⟨_, rfl⟩, rfl, trace_nonmut t hshape p.name⟩
      | some seg =>
        cases hupd : build_update_kwargs kw seg with
        | none =>
          have hr1 := rwf_present_keep p s t kw f seg hpres hseg hupd
          have hs1 : (run p s).state = s := by rw [hrun1, hr1]
          rw [hs1, hrun1, hr1]
          exact ⟨⟨some seg, rfl⟩, rfl, trace_nonmut t hshape p.name⟩
        | some d =>
          have hr1 := rwf_present_update p s t kw f seg d hpres hseg hupd
          have hs1 : (run p s).state = (update_segment s seg.id d).snd := by
            rw [hrun1, hr1]
          have hnet1 : (update_segment s seg.id d).snd.networks = s.networks :=
            rfl
          have hres2 : resolveNetworkStep p (update_segment s seg.id d).snd
              = (t, .ok (kw, f)) :=
            (resolveNetworkStep_congr p _ s hnet1).trans hres
          have hfind2 : find_segment (update_segment s seg.id d).snd p.name f
              = some { seg with description := some d } := by
            have heq : find_segment (update_segment s seg.id d).snd p.name f
                = (s.segments.map (fun x =>
                    if x.id == seg.id then { x with description := some d }
                    else x)).find? (segMatches p.name f) := rfl
            have hseg2 : s.segments.find? (segMatches p.name f) = some seg :=
              hseg
            rw [heq, find?_map_pres _ _ (segMatches_upd p.name f seg.id d) _,
              hseg2]
            simp
          have hdesc : kw.description = some d := build_update_some kw seg d hupd
          have hupd2 : build_update_kwargs kw { seg with description := some d }
              = none := by
            simp [build_update_kwargs, hdesc]
          have hrun2 : run p (update_segment s seg.id d).snd
              = ⟨t ++ [.findSegmentCall p.name],
                 .exited false (some { seg with description := some d }),
                 (update_segment s seg.id d).snd⟩ := by
            rw [run_of_ok p _ t kw f hres2,
              rwf_present_keep p _ t kw f _ hpres hfind2 hupd2]
          rw [hs1, hrun2]
          exact ⟨⟨_, rfl⟩, rfl, trace_nonmut t hshape p.name⟩
  · intro habs t kw f hres hseg
    have hrun1 : run p s = runWithFilters p s t kw f := run_of_ok p s t kw f hres
    have hshape : t = [] ∨ ∃ n, t = [SdkCall.findNetworkCall n] := by
      rcases resolveNetworkStep_trace_shape p s t _ hres with h | ⟨n, _, h⟩
      · exact Or.inl h
      · exact Or.inr ⟨n, h⟩
    have hr1 := rwf_absent_none p s t kw f habs hseg
    rw [hrun1, hr1]
    exact ⟨rfl, trace_nonmut t hshape p.name⟩

/-- C9. When a present run finds the segment, the run never creates or
deletes a segment, any update call it issues carries the found segment's id
and exactly the description parameter, and every segment attribute other
than the description is left unchanged by the run. -/
theorem network_segment_update_frame :
    ∀ (p : SegmentParams) (s : SegCloudState) (t : List SdkCall)
      (kw : SegKwargs) (f : SegFilters) (seg : Segment),
      p.state = .present →
      resolveNetworkStep p s = (t, .ok (kw, f)) →
      find_segment s p.name f = some seg →
      ((run p s).state.segments.map stripDescription
          = s.segments.map stripDescription)
      ∧ ((run p s).trace.all fun call => !isCreateOrDeleteCall call) = true
      ∧ (∀ sid d, SdkCall.updateSegmentCall sid d ∈ (run p s).trace →
          sid = seg.id ∧ p.description = some d) := by
  intro p s t kw f seg hpres hres hseg
  have hrun1 : run p s = runWithFilters p s t kw f := run_of_ok p s t kw f hres
  have hshape : t = [] ∨ ∃ n, t = [SdkCall.findNetworkCall n] := by
    rcases resolveNetworkStep_trace_shape p s t _ hres with h | ⟨n, _, h⟩
    · exact Or.inl h
    · exact Or.inr ⟨n, h⟩
  cases hupd : build_update_kwargs kw seg with
  | none =>
    rw [hrun1, rwf_present_keep p s t kw f seg hpres hseg hupd]
    refine ⟨rfl, ?_, ?_⟩
    · rcases hshape with h | ⟨n, h⟩ <;> subst h <;> rfl
    · intro sid d hmem
      rcases hshape with h | ⟨n, h⟩ <;> subst h <;> simp at hmem
  | some d =>
    rw [hrun1, rwf_present_update p s t kw f seg d hpres hseg hupd]
    refine ⟨?_, ?_, ?_⟩
    · show ((update_segment s seg.id d).snd.segments.map stripDescription)
        = s.segments.map stripDescription
      exact map_strip seg.id d s.segments
    · rcases hshape with h | ⟨n, h⟩ <;> subst h <;> rfl
    · intro sid d2 hmem
      have hdescr : p.description = some d := by
        have h1 := build_update_some kw seg d hupd
        have h2 := (resolveNetworkStep_ok_fields p s t kw f hres).1
        rw [← h2]; exact h1
      rcases hshape with h | ⟨n, h⟩ <;> subst h <;> simp at hmem <;>
        rcases hmem with ⟨h1, h2⟩ <;> subst h1 <;> subst h2 <;>
        exact ⟨rfl, hdescr⟩

/-- C10. Whenever the network parameter is supplied, find_network is the
first SDK call of the run, before any segment lookup or mutation; and when
the lookup resolves to no network the run raises with that name, leaves the
state untouched and issues no segment-mutating call, whatever the state
parameter. -/
theorem network_segment_network_checked_first :
    ∀ (p : SegmentParams) (s : SegCloudState) (n : String),
      p.network = some n →
      (∃ rest, (run p s).trace = SdkCall.findNetworkCall n :: rest)
      ∧ (find_network s n p.network_type p.physical_network = none →
        run p s = ⟨[.findNetworkCall n], .raisedNotFound n, s⟩
        ∧ ((run p s).trace.all fun call => !isMutationCall call) = true) := by
  intro p s n hn
  constructor
  · cases hf : find_network s n p.network_type p.physical_network with
    | none =>
      have hres : resolveNetworkStep p s = ([.findNetworkCall n], .error n) := by
        simp [resolveNetworkStep, hn, hf]
      rw [run_of_error p s _ n hres]
      exact ⟨[], rfl⟩
    | some net =>
      have hres : resolveNetworkStep p s
          = ([.findNetworkCall n],
             .ok ({ baseKwargs p with network_id := some net.id },
                  { baseFilters p with network_id := some net.id })) := by
        simp [resolveNetworkStep, hn, hf]
      rw [run_of_ok p s _ _ _ hres]
      rcases rwf_trace_shape p s [SdkCall.findNetworkCall n]
          { baseKwargs p with network_id := some net.id }
          { baseFilters p with network_id := some net.id } with ⟨ts, hts⟩
      exact ⟨ts, hts⟩
  · intro hf
    have hres : resolveNetworkStep p s = ([.findNetworkCall n], .error n) := by
      simp [resolveNetworkStep, hn, hf]
    have h := run_of_error p s _ n hres
    exact ⟨h, by rw [h]; rfl⟩

/-- Witness for C2 at the net-name token of the FakeCloud fixture. -/
theorem network_args_string_tokens_witness :
    resolvePairs fakeCloud [("net-name", "network1")]
      = (resolvePairs fakeCloud []).map
          (fun xs => ⟨some "5678", none⟩ :: xs) :=
  (network_args_string_tokens fakeCloud "network1" []).2.2.1 "5678" rfl

/-- Witness for C3 at the auto_ip scenario of the test suite. -/
theorem create_server_wait_validation_witness :
    create_server fakeCloud { testServerParams with auto_ip := true }
        = .error (.optionConflict "auto_ip")
      ∧ strContains (failMsg (.optionConflict "auto_ip")) "auto_ip" = true
      ∧ createCallCount (create_server fakeCloud
          { testServerParams with auto_ip := true }) = 0 :=
  (create_server_wait_validation fakeCloud
    { testServerParams with auto_ip := true } rfl).1 rfl

/-- Witness for C4 at the missing_flavor scenario of the test suite. -/
theorem create_server_unresolved_failure_witness :
    create_server fakeCloud badFlavorParams
        = .error (.unresolvedName badFlavorParams.flavor)
      ∧ strContains (failMsg (.unresolvedName badFlavorParams.flavor))
          badFlavorParams.flavor = true
      ∧ createCallCount (create_server fakeCloud badFlavorParams) = 0 :=
  (create_server_unresolved_failure fakeCloud badFlavorParams rfl).1 rfl rfl

/-- Witness for C5 at the successful test_create_server scenario. -/
theorem create_server_success_once_witness :
    create_server fakeCloud testServerParams
        = .ok ⟨"1", "2", [⟨some "5678", none⟩]⟩
      ∧ createCallCount (create_server fakeCloud testServerParams) = 1 :=
  (create_server_success_once fakeCloud testServerParams).1 "1" "2"
    [⟨some "5678", none⟩] rfl rfl rfl rfl

/-- Witness for C6 at the unrecognized key foo. -/
theorem network_args_unrecognized_ignored_witness :
    resolvePair fakeCloud "foo" "bar" = .ok none
      ∧ resolvePairs fakeCloud [("foo", "bar")] = resolvePairs fakeCloud [] :=
  (network_args_unrecognized_ignored fakeCloud "foo" "bar" []).1
    (by decide) (by decide) (by decide) (by decide)

/-- Witness for C7: a present run creating seg1 followed by a second
identical run that changes nothing, and an absent run on a state without
the segment. -/
theorem network_segment_idempotent_witness :
    (run segParams1 (run segParams1 segState0).state).state
        = (run segParams1 segState0).state
    ∧ run segParamsAbsent segState0
        = ⟨[SdkCall.findNetworkCall "net1", SdkCall.findSegmentCall "seg1"],
           .exited false none, segState0⟩ :=
  ⟨((network_segment_idempotent segParams1 segState0).1 rfl true
      (some { id := "segment-0", name := "seg1", description := some "d",
              network_id := some "nid1", network_type := some "vlan",
              physical_network := some "ph",
              segmentation_id := some 100 }) rfl).2.1,
   ((network_segment_idempotent segParamsAbsent segState0).2 rfl
      [SdkCall.findNetworkCall "net1"]
      { description := some "d", network_type := some "vlan",
        physical_network := some "ph", segmentation_id := some 100,
        network_id := some "nid1" }
      { network_type := some "vlan", physical_network := some "ph",
        network_id := some "nid1" } rfl rfl).1⟩

/-- Witness for C8 at the resolved net-id 5678 spec of the mixed test
input. -/
theorem interface_spec_exactly_one_witness :
    exactlyOneOf ⟨some "5678", none⟩ = true :=
  interface_spec_exactly_one fakeCloud
    (.seq [.mapping [("net-id", "1234")], .mapping [("port-name", "port1")],
           .str "net-name=network1,port-id=4321"])
    [⟨some "1234", none⟩, ⟨none, some "1234"⟩, ⟨some "5678", none⟩,
     ⟨none, some "4321"⟩] rfl ⟨some "5678", none⟩ (by decide)

/-- Witness for C9: a present run over a state already holding seg1 with a
different description keeps every attribute but the description. -/
theorem network_segment_update_frame_witness :
    (run segParams1 segState1).state.segments.map stripDescription
      = segState1.segments.map stripDescription :=
  (network_segment_update_frame segParams1 segState1
    [SdkCall.findNetworkCall "net1"]
    { description := some "d", network_type := some "vlan",
      physical_network := some "ph", segmentation_id := some 100,
      network_id := some "nid1" }
    { network_type := some "vlan", physical_network := some "ph",
      network_id := some "nid1" } segExisting rfl rfl rfl).1

/-- Witness for C10 at an unresolvable network name. -/
theorem network_segment_network_checked_first_witness :
    run { segParams1 with network := some "nonet" } segState0
      = ⟨[.findNetworkCall "nonet"], .raisedNotFound "nonet", segState0⟩ :=
  ((network_segment_network_checked_first
    { segParams1 with network := some "nonet" } segState0 "nonet" rfl).2
    rfl).1
